import Mathlib

/-
Verification development for the krishi_mitra repository: a shallow
embedding of the offline-first synchronization layer (client-side offline
queue, connectivity handling, server-side sync reconcilers) and of the
disease-outbreak aggregation model, together with theorems settling the
frozen specification claims.

Embedding conventions:
* JavaScript numbers used for areas are embedded as rationals; timestamps
  (millisecond epoch values) as integers; counts as naturals.
* Mongoose documents and IndexedDB stores are embedded as Lean lists of
  structures; a database write becomes a pure state transformation.
* A JS function that can throw is embedded as an Except-valued function.
* The network is an oracle of type OfflineData -> Bool: true models an ok
  (2xx) fetch response, false models a non-ok response or a thrown network
  error (the code treats both identically).
-/

namespace KrishiMitra

/-! ## Disease outbreak model (backend/models/DiseaseOutbreak.js) -/

/-- Severity enum of the outbreak schema: low, medium, high, critical. -/
inductive Severity
  | low
  | medium
  | high
  | critical
deriving DecidableEq, Repr

/-- Numeric rank of a severity level, used to state monotonicity claims. -/
def Severity.rank : Severity → Nat
  | .low => 0
  | .medium => 1
  | .high => 2
  | .critical => 3

/-- Status enum of the outbreak schema: active, contained, resolved. -/
inductive OutbreakStatus
  | active
  | contained
  | resolved
deriving DecidableEq, Repr

/-- One entry of the reportedBy array of a disease outbreak.  The
affectedArea field is optional in the schema, mirrored by Option. -/
structure OutbreakReport where
  userId : Nat
  severity : Severity
  affectedArea : Option ℚ
  images : List String
  notes : String
deriving DecidableEq, Repr

/-- One entry of the treatmentRecommendations array. -/
structure Treatment where
  treatment : String
  dosage : String
  frequency : String
  duration : String
  recommendedBy : Nat
deriving DecidableEq, Repr

/-- One entry of the alertsSent array. -/
structure OutbreakAlert where
  recipients : Nat
  message : String
deriving DecidableEq, Repr

/-- The DiseaseOutbreak document.  Location, image and verification fields
that no claim mentions are carried opaquely or omitted; the fields the
claims are about (severity, status, reportedBy, affectedArea,
confirmedCases) follow the schema exactly.  confirmedCases defaults to 1
and affectedArea to 0 in the schema. -/
structure DiseaseOutbreak where
  disease : String
  crop : String
  severity : Severity
  status : OutbreakStatus
  reportedBy : List OutbreakReport
  affectedArea : ℚ
  confirmedCases : Nat
  lastUpdated : Int
  treatmentRecommendations : List Treatment
  alertsSent : List OutbreakAlert
  resolvedBy : Option Nat
  resolvedAt : Option Int
deriving DecidableEq, Repr

/-- diseaseOutbreakSchema.methods.addReport: pushes the report, sets
confirmedCases to the new reportedBy length, adds the report's
affectedArea (JS `reportData.affectedArea || 0` becomes getD 0), stamps
lastUpdated, then re-derives severity from the thresholds
(20 cases or 500 acres => critical; 10 or 200 => high; 5 or 50 => medium;
otherwise the severity field is left as it was). -/
def addReport (now : Int) (o : DiseaseOutbreak) (r : OutbreakReport) : DiseaseOutbreak :=
  let reported := o.reportedBy ++ [r]
  let cases := reported.length
  let area := o.affectedArea + r.affectedArea.getD 0
  let sev :=
    if cases ≥ 20 ∨ area ≥ 500 then Severity.critical
    else if cases ≥ 10 ∨ area ≥ 200 then Severity.high
    else if cases ≥ 5 ∨ area ≥ 50 then Severity.medium
    else o.severity
  { o with
      reportedBy := reported
      confirmedCases := cases
      affectedArea := area
      lastUpdated := now
      severity := sev }

/-- diseaseOutbreakSchema.methods.updateStatus: sets status and
lastUpdated; when resolving, records who resolved it and when. -/
def updateStatus (now : Int) (o : DiseaseOutbreak) (newStatus : OutbreakStatus)
    (updatedBy : Nat) : DiseaseOutbreak :=
  let o1 := { o with status := newStatus, lastUpdated := now }
  if newStatus = OutbreakStatus.resolved then
    { o1 with resolvedAt := some now, resolvedBy := some updatedBy }
  else o1

/-- POST /api/outbreaks/:id/treatment: pushes a treatment recommendation
and stamps lastUpdated. -/
def addTreatment (now : Int) (o : DiseaseOutbreak) (t : Treatment) : DiseaseOutbreak :=
  { o with
      treatmentRecommendations := o.treatmentRecommendations ++ [t]
      lastUpdated := now }

/-- sendOutbreakAlerts (routes/outbreaks.js): pushes an alert entry onto
alertsSent and saves.  No other field is touched. -/
def pushAlert (o : DiseaseOutbreak) (a : OutbreakAlert) : DiseaseOutbreak :=
  { o with alertsSent := o.alertsSent ++ [a] }

/-- POST /api/outbreaks/report, create branch: a fresh outbreak seeded
with the single submitted report.  severity and affectedArea come from
the request body (affectedArea defaults to 0), reportedBy holds exactly
the one report, and confirmedCases takes its schema default 1. -/
def createOutbreak (now : Int) (disease crop : String) (severity : Severity)
    (affectedArea : ℚ) (userId : Nat) (images : List String) (notes : String) :
    DiseaseOutbreak :=
  { disease := disease
    crop := crop
    severity := severity
    status := OutbreakStatus.active
    reportedBy := [{ userId := userId, severity := severity,
                     affectedArea := some affectedArea, images := images, notes := notes }]
    affectedArea := affectedArea
    confirmedCases := 1
    lastUpdated := now
    treatmentRecommendations := []
    alertsSent := []
    resolvedBy := none
    resolvedAt := none }

/-- Threshold-derived severity escalation level of addReport, stated
separately so that claims about when severity escalates can be compared
against the method: some level when a threshold band is met, none when
the method leaves severity unchanged. -/
def thresholdSeverity (cases : Nat) (area : ℚ) : Option Severity :=
  if cases ≥ 20 ∨ area ≥ 500 then some Severity.critical
  else if cases ≥ 10 ∨ area ≥ 200 then some Severity.high
  else if cases ≥ 5 ∨ area ≥ 50 then some Severity.medium
  else none

/-- The outbreak states reachable through the repository's code paths:
created by the report endpoint with one initial report, then mutated only
by addReport, updateStatus, treatment additions and alert pushes. -/
inductive ReachableOutbreak : DiseaseOutbreak → Prop
  | created (now : Int) (disease crop : String) (severity : Severity)
      (affectedArea : ℚ) (userId : Nat) (images : List String) (notes : String) :
      ReachableOutbreak (createOutbreak now disease crop severity affectedArea userId images notes)
  | reported (now : Int) (o : DiseaseOutbreak) (r : OutbreakReport) :
      ReachableOutbreak o → ReachableOutbreak (addReport now o r)
  | statusChanged (now : Int) (o : DiseaseOutbreak) (s : OutbreakStatus) (u : Nat) :
      ReachableOutbreak o → ReachableOutbreak (updateStatus now o s u)
  | treated (now : Int) (o : DiseaseOutbreak) (t : Treatment) :
      ReachableOutbreak o → ReachableOutbreak (addTreatment now o t)
  | alerted (o : DiseaseOutbreak) (a : OutbreakAlert) :
      ReachableOutbreak o → ReachableOutbreak (pushAlert o a)

/-! ## Client offline context (src/context/OfflineContext.tsx) -/

/-- The OfflineData interface: a locally persisted record.  The payload
is opaque. -/
structure OfflineData where
  id : String
  type : String
  data : String
  timestamp : Int
  synced : Bool
deriving DecidableEq, Repr

/-- Client-side state of the OfflineProvider: the isOnline and
forceOffline booleans, the offlineData object store, the pendingSync
object store, and the pendingSync React state array that drain iterates. -/
structure ClientState where
  isOnline : Bool
  forceOffline : Bool
  offlineData : List OfflineData
  pendingSyncStore : List OfflineData
  pendingSyncState : List OfflineData
deriving DecidableEq, Repr

/-- IndexedDB put against a store keyed by id: replace the record with
the same key, or append when the key is absent. -/
def dbPut (store : List OfflineData) (item : OfflineData) : List OfflineData :=
  if store.any (fun r => r.id == item.id) then
    store.map (fun r => if r.id == item.id then item else r)
  else store ++ [item]

/-- IndexedDB delete by key. -/
def dbDelete (store : List OfflineData) (key : String) : List OfflineData :=
  store.filter (fun r => r.id ≠ key)

/-- syncDataItem: one delivery attempt.  On an ok response the record is
re-put into offlineData with synced = true and removed from the
pendingSync store, returning true; on a non-ok response or a network
error nothing changes and false is returned. -/
def syncDataItem (net : OfflineData → Bool) (s : ClientState) (item : OfflineData) :
    ClientState × Bool :=
  if net item then
    ({ s with
        offlineData := dbPut s.offlineData { item with synced := true }
        pendingSyncStore := dbDelete s.pendingSyncStore item.id }, true)
  else (s, false)

/-- The client-generated record id: type prefix, millisecond timestamp,
random suffix, joined by underscores. -/
def mkOfflineId (type : String) (now : Int) (rand : String) : String :=
  type ++ "_" ++ toString now ++ "_" ++ rand

/-- The record saveOfflineData builds: fresh id, synced = false. -/
def mkOfflineItem (type data : String) (now : Int) (rand : String) : OfflineData :=
  { id := mkOfflineId type now rand
    type := type
    data := data
    timestamp := now
    synced := false }

/-- saveOfflineData: persists the new record to offlineData; when offline
it is also added to the pendingSync store and state; when online a single
immediate delivery attempt is made instead. -/
def saveOfflineData (net : OfflineData → Bool) (now : Int) (rand : String)
    (s : ClientState) (type data : String) : ClientState :=
  let item := mkOfflineItem type data now rand
  let s1 := { s with offlineData := s.offlineData ++ [item] }
  if s1.isOnline = false then
    { s1 with
        pendingSyncStore := s1.pendingSyncStore ++ [item]
        pendingSyncState := s1.pendingSyncState ++ [item] }
  else (syncDataItem net s1 item).1

/-- syncPendingData (the drain): bails out when offline or when the
pending state list is empty; otherwise attempts delivery of every item of
the pending state list and keeps exactly the failed ones as the new
pending state. -/
def syncPendingData (net : OfflineData → Bool) (s : ClientState) : ClientState :=
  if s.isOnline = false ∨ s.pendingSyncState = [] then s
  else
    let r := s.pendingSyncState.foldl
      (fun acc item =>
        let step := syncDataItem net acc.1 item
        (step.1, if step.2 then acc.2 else acc.2 ++ [item]))
      (s, ([] : List OfflineData))
    { r.1 with pendingSyncState := r.2 }

/-- IDBKeyRange.only requires a valid IndexedDB key; valid keys are
numbers, dates, strings, binary data and arrays thereof.  A boolean is
not a valid key, so the call throws DataError for any boolean argument. -/
def idbKeyRangeOnlyBool (_b : Bool) : Except String Unit :=
  Except.error "DataError"

/-- clearSyncedData (the pruning routine): the body queries the synced
index with IDBKeyRange.only(true) and would then delete the synced
records whose timestamp is older than seven days before now.  The synced
field is a boolean, an invalid IndexedDB key, so the query throws
DataError at its first step; the surrounding try/catch logs and swallows
the error, and the store is left unchanged.  The deletion the code spells
out is kept visible in the ok branch, which is unreachable. -/
def clearSyncedData (now : Int) (s : ClientState) : ClientState :=
  match (idbKeyRangeOnlyBool true).map (fun _ =>
    let weekAgo := now - 7 * 24 * 60 * 60 * 1000
    { s with
        offlineData := s.offlineData.filter
          (fun item => ! (item.synced && decide (item.timestamp < weekAgo))) }) with
  | Except.ok s1 => s1
  | Except.error _ => s

/-- The setter calls a connectivity handler performs, plus a drain marker
so that claims about drains being triggered can be stated. -/
inductive ClientEffect
  | setIsOnline (b : Bool)
  | setForceOffline (b : Bool)
  | drainQueue
deriving DecidableEq, Repr

/-- The window online event handler: when the user has not forced offline
mode it sets isOnline to true; nothing else happens in its body. -/
def handleOnline (s : ClientState) : ClientState × List ClientEffect :=
  if s.forceOffline = false then
    ({ s with isOnline := true }, [ClientEffect.setIsOnline true])
  else (s, [])

/-- The window offline event handler: sets isOnline to false. -/
def handleOffline (s : ClientState) : ClientState × List ClientEffect :=
  ({ s with isOnline := false }, [ClientEffect.setIsOnline false])

/-- toggleOnlineMode: flips forceOffline; the branch reads the stale
pre-toggle value, so when the override was on it re-queries
navigator.onLine, and when it was off it forces isOnline to false. -/
def toggleOnlineMode (navigatorOnLine : Bool) (s : ClientState) :
    ClientState × List ClientEffect :=
  let s1 := { s with forceOffline := !s.forceOffline }
  if s.forceOffline then
    ({ s1 with isOnline := navigatorOnLine },
     [ClientEffect.setForceOffline (!s.forceOffline), ClientEffect.setIsOnline navigatorOnLine])
  else
    ({ s1 with isOnline := false },
     [ClientEffect.setForceOffline (!s.forceOffline), ClientEffect.setIsOnline false])

/-! ## IndexedDB key order of the pendingSync store

The pendingSync store is keyed by the record's id string, and
database.getAll returns records in ascending key order.  IndexedDB
compares string keys by code unit, embedded here as lexicographic
comparison of the character lists of the two ids. -/

/-- Code-unit lexicographic comparison of character lists, the IndexedDB
string key order. -/
def charListLe : List Char → List Char → Bool
  | [], _ => true
  | _ :: _, [] => false
  | a :: as, b :: bs =>
    if a.toNat < b.toNat then true
    else if b.toNat < a.toNat then false
    else charListLe as bs

/-- IndexedDB string key order on whole strings. -/
def strLe (a b : String) : Bool := charListLe a.data b.data

/-- Key order on pendingSync records: ascending id string. -/
def idKeyLe (a b : OfflineData) : Prop := strLe a.id b.id = true

instance : DecidableRel idKeyLe := fun a b =>
  inferInstanceAs (Decidable (strLe a.id b.id = true))

/-- database.getAll on the pendingSync store: the stored records in
ascending key order.  The store itself is modelled as the insertion-order
list, so getAll sorts it by the id key. -/
def idbGetAll (store : List OfflineData) : List OfflineData :=
  store.insertionSort idKeyLe

/-! ## Server-side sync endpoint (backend/routes/sync.js) -/

/-- The structured outcome a reconciler returns. -/
inductive SyncResult
  | created (id : Nat)
  | skipped (reason : String) (id : Nat)
  | logged (timestamp : Int)
  | updated (fields : List String)
  | noChanges (reason : String)
deriving DecidableEq, Repr

/-- A stored CropDiagnosis document, restricted to the fields the sync
reconcilers read or write.  The synthetic id stands for Mongo's _id. -/
structure DiagnosisRecord where
  id : Nat
  user : Nat
  createdAt : Int
  disease : String
  crop : String
  isOffline : Bool
deriving DecidableEq, Repr

/-- The preferences subdocument of the User schema, restricted to its
enum-validated paths: language (en/hi/kn/ta/te), units.temperature
(celsius/fahrenheit) and units.area (acres/hectares).  The boolean
notification flags carry no validator that can fail and are omitted. -/
structure Preferences where
  language : String
  tempUnit : String
  areaUnit : String
deriving DecidableEq, Repr

/-- The farmDetails subdocument of the User schema: optional size with a
min-0 bound, free-form crops, optional enum-validated soilType. -/
structure FarmDetails where
  size : Option ℚ
  crops : List String
  soilType : Option String
deriving DecidableEq, Repr

/-- The location subdocument of the User schema; it carries no
validator. -/
structure UserLocation where
  latitude : Option ℚ
  longitude : Option ℚ
  address : Option String
deriving DecidableEq, Repr

/-- A stored user profile, restricted to what syncUserData touches: the
three allow-listed subdocuments, with every other stored field carried
opaquely in otherFields.  The User schema defines no lastSync path, so
none is modelled. -/
structure UserProfile where
  id : Nat
  preferences : Preferences
  farmDetails : FarmDetails
  location : UserLocation
  otherFields : List (String × String)
deriving DecidableEq, Repr

/-- The User schema validators reachable through the allow-listed paths,
run by user.save(): the three preference enums, the min-0 farm size and
the soilType enum.  (name/email/password cannot be touched through
syncUserData and the found document already passed their checks.) -/
def validPreferences (p : Preferences) : Bool :=
  (p.language == "en" || p.language == "hi" || p.language == "kn" ||
    p.language == "ta" || p.language == "te") &&
  (p.tempUnit == "celsius" || p.tempUnit == "fahrenheit") &&
  (p.areaUnit == "acres" || p.areaUnit == "hectares")

/-- farmDetails validators: size non-negative when present, soilType in
its enum when present. -/
def validFarmDetails (f : FarmDetails) : Bool :=
  (match f.size with
   | some sz => decide ((0 : ℚ) ≤ sz)
   | none => true) &&
  (match f.soilType with
   | some soil => soil == "sandy" || soil == "loamy" || soil == "clay" ||
       soil == "silt" || soil == "peaty" || soil == "chalky"
   | none => true)

/-- Whole-document validation user.save() performs on the paths syncUserData
can reach. -/
def validUserProfile (u : UserProfile) : Bool :=
  validPreferences u.preferences && validFarmDetails u.farmDetails

/-- Server database state: the diagnosis and user collections plus the
next synthetic id. -/
structure ServerState where
  diagnoses : List DiagnosisRecord
  users : List UserProfile
  nextId : Nat
deriving DecidableEq, Repr

/-- The data.result object of a diagnosis sync payload, as the
CropDiagnosis schema reads it; any of the three paths may be absent in
the raw JSON. -/
structure DiagnosisResult where
  disease : Option String
  confidence : Option ℚ
  severity : Option String
deriving DecidableEq, Repr

/-- The validators CropDiagnosis.save() runs on the diagnosis
subdocument: disease is required, confidence is required and bounded to
0..1, severity is required and one of low/medium/high.  (user and crop
are always set by the reconciler itself.) -/
def validDiagnosis (r : DiagnosisResult) : Bool :=
  r.disease.isSome &&
  (match r.confidence with
   | some c => decide ((0 : ℚ) ≤ c) && decide (c ≤ 1)
   | none => false) &&
  (match r.severity with
   | some sv => sv == "low" || sv == "medium" || sv == "high"
   | none => false)

/-- The untyped JSON data object of a sync item, seen through the
accesses the reconcilers make: data.result and data.crop for the
diagnosis reconciler, the three allow-listed subdocuments for the
user_data reconciler, and the names of whatever other keys the object
carries (no reconciler ever reads their values). -/
structure SyncData where
  result : Option DiagnosisResult
  crop : Option String
  preferences : Option Preferences
  farmDetails : Option FarmDetails
  location : Option UserLocation
  otherKeys : List String
deriving DecidableEq, Repr

/-- The findOne filter of syncDiagnosisData.  When data.result?.disease
is undefined, Mongoose drops the undefined clause from the query, so only
user and createdAt are matched. -/
def diagnosisQueryMatch (uid : Nat) (ts : Int) (dis : Option String)
    (d : DiagnosisRecord) : Bool :=
  d.user == uid && d.createdAt == ts &&
    (match dis with
     | some x => d.disease == x
     | none => true)

/-- syncDiagnosisData: look the dedup key up; if a record exists return
skipped with its id; otherwise build the new record tagged isOffline with
createdAt taken from the submitted timestamp and save it.  The save
validates the diagnosis subdocument (disease, confidence in 0..1,
severity enum); a payload failing any of those throws a ValidationError
and creates nothing. -/
def syncDiagnosisData (st : ServerState) (uid : Nat) (data : SyncData) (ts : Int) :
    Except String (SyncResult × ServerState) :=
  match st.diagnoses.find? (diagnosisQueryMatch uid ts (data.result.bind (fun r => r.disease))) with
  | some existing => Except.ok (SyncResult.skipped "Diagnosis already exists" existing.id, st)
  | none =>
    match data.result with
    | none => Except.error "CropDiagnosis validation failed"
    | some r =>
      match r.disease with
      | none => Except.error "CropDiagnosis validation failed"
      | some dis =>
        if validDiagnosis r then
          Except.ok (SyncResult.created st.nextId,
            { st with
                diagnoses := st.diagnoses ++
                  [{ id := st.nextId, user := uid, createdAt := ts, disease := dis,
                     crop := data.crop.getD "unknown", isOffline := true }]
                nextId := st.nextId + 1 })
        else Except.error "CropDiagnosis validation failed"

/-- syncIrrigationData: pure analytics logging, no persistence. -/
def syncIrrigationData (st : ServerState) (_uid : Nat) (_data : SyncData) (ts : Int) :
    Except String (SyncResult × ServerState) :=
  Except.ok (SyncResult.logged ts, st)

/-- syncMarketData: pure analytics logging, no persistence. -/
def syncMarketData (st : ServerState) (_uid : Nat) (_data : SyncData) (ts : Int) :
    Except String (SyncResult × ServerState) :=
  Except.ok (SyncResult.logged ts, st)

/-- The fixed allow-list of syncUserData. -/
def allowedUpdates : List String := ["preferences", "farmDetails", "location"]

/-- The allow-listed field names present in the payload, in allow-list
order: the keys of the updates object the forEach loop builds. -/
def presentUserFields (data : SyncData) : List String :=
  allowedUpdates.filter (fun f =>
    if f == "preferences" then data.preferences.isSome
    else if f == "farmDetails" then data.farmDetails.isSome
    else if f == "location" then data.location.isSome
    else false)

/-- The Object.assign step: each allow-listed subdocument present in the
payload replaces the stored one; absent fields are kept. -/
def mergedProfile (u : UserProfile) (data : SyncData) : UserProfile :=
  { u with
      preferences := data.preferences.getD u.preferences
      farmDetails := data.farmDetails.getD u.farmDetails
      location := data.location.getD u.location }

/-- syncUserData: throws when the user does not exist; collects the
allow-listed fields present in the payload; with no collected update it
returns no_changes, otherwise it assigns the updates onto the profile and
saves.  user.save() re-validates the document, so an update carrying an
invalid value (enum violation or negative farm size) throws a
ValidationError and nothing persists; a valid update persists and returns
updated with the applied field names. -/
def syncUserData (st : ServerState) (uid : Nat) (data : SyncData) :
    Except String (SyncResult × ServerState) :=
  match st.users.find? (fun u => u.id == uid) with
  | none => Except.error "User not found"
  | some u =>
    let fields := presentUserFields data
    if fields.length > 0 then
      let u1 := mergedProfile u data
      if validUserProfile u1 then
        Except.ok (SyncResult.updated fields,
          { st with users := st.users.map (fun w => if w.id == uid then u1 else w) })
      else Except.error "User validation failed"
    else Except.ok (SyncResult.noChanges "No valid updates found", st)

/-- The validated type of a sync item; the route's validator rejects the
whole request when an item's type is outside this closed set, so the
processing loop only ever sees these four. -/
inductive SyncType
  | diagnosis
  | irrigation
  | market
  | user_data
deriving DecidableEq, Repr

/-- A validated batch item. -/
structure SyncItem where
  type : SyncType
  data : SyncData
  timestamp : Int
deriving DecidableEq, Repr

/-- The per-item dispatch of the sync endpoints. -/
def processItem (st : ServerState) (uid : Nat) (item : SyncItem) :
    Except String (SyncResult × ServerState) :=
  match item.type with
  | SyncType.diagnosis => syncDiagnosisData st uid item.data item.timestamp
  | SyncType.irrigation => syncIrrigationData st uid item.data item.timestamp
  | SyncType.market => syncMarketData st uid item.data item.timestamp
  | SyncType.user_data => syncUserData st uid item.data

/-- Per-item entry of the batch results array: success with the
reconciler's result, or error with the caught message. -/
inductive ItemStatus
  | success (r : SyncResult)
  | error (msg : String)
deriving DecidableEq, Repr

/-- One element of the batch response's results array. -/
structure ItemOutcome where
  type : SyncType
  status : ItemStatus
deriving DecidableEq, Repr

/-- Whether a results entry reports success. -/
def ItemOutcome.isSuccess : ItemOutcome → Bool
  | { status := ItemStatus.success _, .. } => true
  | _ => false

/-- Whether a results entry reports an error. -/
def ItemOutcome.isError : ItemOutcome → Bool
  | { status := ItemStatus.error _, .. } => true
  | _ => false

/-- The batch processing loop: each item is dispatched inside its own
try/catch, so a throwing reconciler contributes an error entry and leaves
the database state as it was, and the loop continues with the next item. -/
def processItems (st : ServerState) (uid : Nat) :
    List SyncItem → List ItemOutcome × ServerState
  | [] => ([], st)
  | item :: rest =>
    match processItem st uid item with
    | Except.ok r =>
      let t := processItems r.2 uid rest
      ({ type := item.type, status := ItemStatus.success r.1 } :: t.1, t.2)
    | Except.error m =>
      let t := processItems st uid rest
      ({ type := item.type, status := ItemStatus.error m } :: t.1, t.2)

/-- findByIdAndUpdate of the user's lastSync timestamp, done once after
the loop.  The User schema defines no lastSync path, so strict mode
silently strips the update and the stored documents are unchanged. -/
def updateLastSync (st : ServerState) (_uid : Nat) (_now : Int) : ServerState :=
  st

/-- The summary object of the batch response. -/
structure BatchSummary where
  total : Nat
  success : Nat
  errors : Nat
deriving DecidableEq, Repr

/-- POST /api/sync/batch after validation: process every item, update
lastSync once, and report the summary counts over the results array. -/
def batchSync (st : ServerState) (uid : Nat) (items : List SyncItem) (now : Int) :
    BatchSummary × List ItemOutcome × ServerState :=
  let pr := processItems st uid items
  let st2 := updateLastSync pr.2 uid now
  ({ total := items.length,
     success := (pr.1.filter ItemOutcome.isSuccess).length,
     errors := (pr.1.filter ItemOutcome.isError).length },
   pr.1, st2)

/-- Milliseconds in a day. -/
def msPerDay : Int := 24 * 60 * 60 * 1000

/-- Cutoff computation of DELETE /api/sync/clear: the olderThan query
value selects 7, 30 or 90 days; an absent parameter defaults to 30d and
any other value falls through the switch to the same 30-day cutoff. -/
def clearCutoff (now : Int) (olderThan : Option String) : Int :=
  match olderThan.getD "30d" with
  | "7d" => now - 7 * msPerDay
  | "30d" => now - 30 * msPerDay
  | "90d" => now - 90 * msPerDay
  | _ => now - 30 * msPerDay

/-- The deleteMany filter of DELETE /api/sync/clear: the requesting
user's offline-origin records older than the cutoff. -/
def clearMatch (uid : Nat) (cutoff : Int) (d : DiagnosisRecord) : Bool :=
  d.user == uid && d.createdAt < cutoff && d.isOffline

/-- DELETE /api/sync/clear after auth: computes the cutoff and deletes
the matching diagnosis records, returning the deleted count. -/
def clearOldData (st : ServerState) (uid : Nat) (now : Int) (olderThan : Option String) :
    ServerState × Nat :=
  let cutoff := clearCutoff now olderThan
  ({ st with diagnoses := st.diagnoses.filter (fun d => ! clearMatch uid cutoff d) },
   st.diagnoses.countP (clearMatch uid cutoff))

/-! ## Helper lemmas -/

/-- Code-unit lexicographic comparison is total. -/
theorem charListLe_total : ∀ a b, charListLe a b = true ∨ charListLe b a = true := by
  intro a
  induction a with
  | nil => intro b; left; rfl
  | cons x xs ih =>
    intro b
    cases b with
    | nil => right; rfl
    | cons y ys =>
      by_cases h1 : x.toNat < y.toNat
      · left; simp [charListLe, h1]
      · by_cases h2 : y.toNat < x.toNat
        · right; simp [charListLe, h1, h2]
        · rcases ih ys with h | h
          · left; simp [charListLe, h1, h2, h]
          · right; simp [charListLe, h1, h2, h]

/-- Code-unit lexicographic comparison is transitive. -/
theorem charListLe_trans : ∀ a b c, charListLe a b = true → charListLe b c = true →
    charListLe a c = true := by
  intro a
  induction a with
  | nil => intro b c _ _; rfl
  | cons x xs ih =>
    intro b c hab hbc
    cases b with
    | nil => simp [charListLe] at hab
    | cons y ys =>
      cases c with
      | nil => simp [charListLe] at hbc
      | cons z zs =>
        simp only [charListLe] at hab hbc ⊢
        by_cases hxy : x.toNat < y.toNat <;> by_cases hyx : y.toNat < x.toNat <;>
          by_cases hyz : y.toNat < z.toNat <;> by_cases hzy : z.toNat < y.toNat <;>
          by_cases hxz : x.toNat < z.toNat <;> by_cases hzx : z.toNat < x.toNat <;>
          simp_all <;>
          first
            | omega
            | exact Or.inr (ih ys zs hab hbc)

instance : IsTotal OfflineData idKeyLe :=
  ⟨fun a b => charListLe_total a.id.data b.id.data⟩

instance : IsTrans OfflineData idKeyLe :=
  ⟨fun a b c => charListLe_trans a.id.data b.id.data c.id.data⟩

/-! ## C7: confirmedCases equals the reportedBy length on every reachable
outbreak -/

/-- C7: for every outbreak state reachable through the repository's code
paths (created by the report endpoint with one initial report, then
mutated by addReport, updateStatus, treatment additions and alert
pushes), confirmedCases equals the length of the reportedBy list. -/
theorem confirmedCases_eq_reportCount (o : DiseaseOutbreak)
    (h : ReachableOutbreak o) : o.confirmedCases = o.reportedBy.length := by
  induction h with
  | created now disease crop severity affectedArea userId images notes => rfl
  | reported now o r _ ih => simp [addReport]
  | statusChanged now o s u _ ih =>
    unfold updateStatus
    split <;> simpa using ih
  | treated now o t _ ih => simpa [addTreatment] using ih
  | alerted o a _ ih => simpa [pushAlert] using ih

/-- Witness for C7 at a concrete reachable outbreak. -/
theorem confirmedCases_eq_reportCount_witness :
    ReachableOutbreak (addReport 5 (createOutbreak 0 "Blast" "Rice" Severity.low 0 7 [] "")
      { userId := 8, severity := Severity.low, affectedArea := some 2, images := [], notes := "" })
    ∧ (addReport 5 (createOutbreak 0 "Blast" "Rice" Severity.low 0 7 [] "")
        { userId := 8, severity := Severity.low, affectedArea := some 2, images := [], notes := "" }).confirmedCases
      = (addReport 5 (createOutbreak 0 "Blast" "Rice" Severity.low 0 7 [] "")
          { userId := 8, severity := Severity.low, affectedArea := some 2, images := [], notes := "" }).reportedBy.length :=
  ⟨ReachableOutbreak.reported 5 _ _
      (ReachableOutbreak.created 0 "Blast" "Rice" Severity.low 0 7 [] ""),
   confirmedCases_eq_reportCount _
     (ReachableOutbreak.reported 5 _ _
       (ReachableOutbreak.created 0 "Blast" "Rice" Severity.low 0 7 [] ""))⟩

/-! ## C1: severity escalation of addReport -/

/-- C1 counterexample: a cluster whose initial user-supplied severity is
critical with four reports and no affected area is downgraded to medium
by the fifth addReport, because crossing the 5-case threshold re-derives
severity to medium.  The state is reached purely through the repository's
code paths, so addReport does decrease severity. -/
theorem addReport_severity_downgrade_cx :
    (addReport 4 (addReport 3 (addReport 2 (addReport 1
        (createOutbreak 0 "Blast" "Rice" Severity.critical 0 1 [] "")
        { userId := 2, severity := Severity.critical, affectedArea := some 0, images := [], notes := "" })
        { userId := 3, severity := Severity.critical, affectedArea := some 0, images := [], notes := "" })
        { userId := 4, severity := Severity.critical, affectedArea := some 0, images := [], notes := "" })
        { userId := 5, severity := Severity.critical, affectedArea := some 0, images := [], notes := "" }).severity
      = Severity.medium
    ∧ (addReport 3 (addReport 2 (addReport 1
        (createOutbreak 0 "Blast" "Rice" Severity.critical 0 1 [] "")
        { userId := 2, severity := Severity.critical, affectedArea := some 0, images := [], notes := "" })
        { userId := 3, severity := Severity.critical, affectedArea := some 0, images := [], notes := "" })
        { userId := 4, severity := Severity.critical, affectedArea := some 0, images := [], notes := "" }).severity
      = Severity.critical
    ∧ Severity.rank Severity.medium < Severity.rank Severity.critical := by
  norm_num [createOutbreak, addReport, Severity.rank]

/-- C1 amended: addReport re-derives severity to exactly the
threshold-determined level (20 cases or 500 acres for critical, 10 or 200
for high, 5 or 50 for medium) and leaves it unchanged below every
threshold; consequently severity never decreases across addReport
provided the severity before the call does not already exceed the
threshold-derived level of the post-call counts.  Without that proviso
the escalation can downgrade a cluster seeded with a user-supplied
severity above its thresholds. -/
theorem addReport_severity_escalation (now : Int) (o : DiseaseOutbreak) (r : OutbreakReport)
    (h : ∀ s, thresholdSeverity (o.reportedBy.length + 1) (o.affectedArea + r.affectedArea.getD 0)
        = some s → o.severity.rank ≤ s.rank) :
    (addReport now o r).severity =
      (thresholdSeverity (addReport now o r).confirmedCases (addReport now o r).affectedArea).getD
        o.severity
    ∧ o.severity.rank ≤ (addReport now o r).severity.rank := by
  have hc : (addReport now o r).confirmedCases = o.reportedBy.length + 1 := by
    simp only [addReport, List.length_append, List.length_singleton]
  have ha : (addReport now o r).affectedArea = o.affectedArea + r.affectedArea.getD 0 := rfl
  have hs : (addReport now o r).severity =
      (if o.reportedBy.length + 1 ≥ 20 ∨ o.affectedArea + r.affectedArea.getD 0 ≥ 500 then
        Severity.critical
      else if o.reportedBy.length + 1 ≥ 10 ∨ o.affectedArea + r.affectedArea.getD 0 ≥ 200 then
        Severity.high
      else if o.reportedBy.length + 1 ≥ 5 ∨ o.affectedArea + r.affectedArea.getD 0 ≥ 50 then
        Severity.medium
      else o.severity) := by
    simp only [addReport, List.length_append, List.length_singleton]
  rw [hc, ha, hs]
  unfold thresholdSeverity
  split_ifs with h1 h2 h3
  · exact ⟨rfl, by cases o.severity <;> simp [Severity.rank]⟩
  · refine ⟨rfl, h Severity.high ?_⟩
    simp only [thresholdSeverity, ge_iff_le, if_neg h1, if_pos h2]
  · refine ⟨rfl, h Severity.medium ?_⟩
    simp only [thresholdSeverity, ge_iff_le, if_neg h1, if_neg h2, if_pos h3]
  · exact ⟨rfl, Nat.le_refl _⟩

/-- Witness for the amended C1 theorem at a concrete below-threshold
report addition. -/
theorem addReport_severity_escalation_witness :
    (∀ s, thresholdSeverity
        ((createOutbreak 0 "Blast" "Rice" Severity.low 0 1 [] "").reportedBy.length + 1)
        ((createOutbreak 0 "Blast" "Rice" Severity.low 0 1 [] "").affectedArea +
          ({ userId := 2, severity := Severity.low, affectedArea := some 2, images := [],
             notes := "" : OutbreakReport }).affectedArea.getD 0) = some s →
      (createOutbreak 0 "Blast" "Rice" Severity.low 0 1 [] "").severity.rank ≤ s.rank)
    ∧ ((addReport 9 (createOutbreak 0 "Blast" "Rice" Severity.low 0 1 [] "")
          { userId := 2, severity := Severity.low, affectedArea := some 2, images := [], notes := "" }).severity =
        (thresholdSeverity
          (addReport 9 (createOutbreak 0 "Blast" "Rice" Severity.low 0 1 [] "")
            { userId := 2, severity := Severity.low, affectedArea := some 2, images := [], notes := "" }).confirmedCases
          (addReport 9 (createOutbreak 0 "Blast" "Rice" Severity.low 0 1 [] "")
            { userId := 2, severity := Severity.low, affectedArea := some 2, images := [], notes := "" }).affectedArea).getD
          (createOutbreak 0 "Blast" "Rice" Severity.low 0 1 [] "").severity
      ∧ (createOutbreak 0 "Blast" "Rice" Severity.low 0 1 [] "").severity.rank ≤
          (addReport 9 (createOutbreak 0 "Blast" "Rice" Severity.low 0 1 [] "")
            { userId := 2, severity := Severity.low, affectedArea := some 2, images := [], notes := "" }).severity.rank) :=
  ⟨(by intro s hs; norm_num [createOutbreak, thresholdSeverity] at hs; exact Option.noConfusion hs),
   (addReport_severity_escalation 9 _ _
     (by intro s hs; norm_num [createOutbreak, thresholdSeverity] at hs; exact Option.noConfusion hs))⟩

/-! ## C8: what clearSyncedData actually deletes -/

/-- C8: the pruning routine is a permanent no-op.  The synced index is
queried with IDBKeyRange.only(true), but booleans are not valid IndexedDB
keys: the call throws DataError and the catch block swallows it, so
clearSyncedData never deletes anything -- in particular not the synced
records older than the 7-day window that the claim (and the code's own
comment) says it removes.  The second conjunct evaluates the code at a
failing input: a synced record far older than the window survives. -/
theorem clearSyncedData_noop :
    (∀ (now : Int) (s : ClientState), clearSyncedData now s = s)
    ∧ ({ id := "diagnosis_1_a", type := "diagnosis", data := "", timestamp := 1,
         synced := true : OfflineData } ∈
        (clearSyncedData 100000000000
          { isOnline := true, forceOffline := false,
            offlineData := [{ id := "diagnosis_1_a", type := "diagnosis", data := "",
                              timestamp := 1, synced := true }],
            pendingSyncStore := [], pendingSyncState := [] }).offlineData) :=
  ⟨fun _ _ => rfl, by decide⟩

/-! ## C5: no drain is wired to the online transition -/

/-- C5: on both false-to-true transitions of the effective online flag
(the OS online event with no forced-offline override, and clearing the
forced-offline override while the navigator reports online), the handler
bodies only set state and launch zero drain invocations, although the
repository's README states data syncs automatically when the connection
is restored.  Transitions to false likewise only set state. -/
theorem onlineTransition_triggersNoDrain :
    ((handleOnline
        { isOnline := false, forceOffline := false, offlineData := [],
          pendingSyncStore := [], pendingSyncState := [] }).1.isOnline = true
      ∧ (handleOnline
          { isOnline := false, forceOffline := false, offlineData := [],
            pendingSyncStore := [], pendingSyncState := [] }).2.count ClientEffect.drainQueue = 0)
    ∧ ((toggleOnlineMode true
          { isOnline := false, forceOffline := true, offlineData := [],
            pendingSyncStore := [], pendingSyncState := [] }).1.isOnline = true
      ∧ (toggleOnlineMode true
          { isOnline := false, forceOffline := true, offlineData := [],
            pendingSyncStore := [], pendingSyncState := [] }).2.count ClientEffect.drainQueue = 0)
    ∧ (handleOffline
        { isOnline := true, forceOffline := false, offlineData := [],
          pendingSyncStore := [], pendingSyncState := [] }).2 =
        [ClientEffect.setIsOnline false] := by
  decide

/-! ## C3: what happens to records whose delivery attempt fails -/

/-- The success flag returned by syncDataItem is exactly the network
outcome for the item. -/
theorem syncDataItem_flag (net : OfflineData → Bool) (s : ClientState) (item : OfflineData) :
    (syncDataItem net s item).2 = net item := by
  unfold syncDataItem
  cases h : net item <;> simp [h]

/-- The accumulator of the drain loop collects exactly the items whose
delivery attempt failed, appended to the incoming accumulator. -/
theorem drainFold (net : OfflineData → Bool) :
    ∀ (l : List OfflineData) (st : ClientState) (acc : List OfflineData),
      (List.foldl (fun acc2 item =>
          let step := syncDataItem net acc2.1 item
          (step.1, if step.2 then acc2.2 else acc2.2 ++ [item])) (st, acc) l).2
        = acc ++ l.filter (fun item => !net item) := by
  intro l
  induction l with
  | nil => intro st acc; simp
  | cons x xs ih =>
    intro st acc
    simp only [List.foldl_cons, List.filter_cons]
    rcases hstep : syncDataItem net st x with ⟨st1, flag⟩
    have hflag : flag = net x := by
      have h2 := syncDataItem_flag net st x
      rw [hstep] at h2
      exact h2
    simp only [hstep]
    cases hx : net x
    · rw [hflag, hx]
      simp only [Bool.false_eq_true, if_false, Bool.not_false, if_true]
      rw [ih]
      simp
    · rw [hflag, hx]
      simp only [if_true, Bool.not_true, Bool.false_eq_true, if_false]
      exact ih st1 acc

/-- C3 counterexample: while online, a record whose immediate delivery
attempt fails is persisted unsynced but never added to the pending queue
(neither store nor state), so a later drain cycle — even over a perfect
network — does not retry it.  The claim that every failed record remains
in the pending queue and is retried is therefore false for the
enqueue-while-online path. -/
theorem failedImmediateDelivery_cx :
    (saveOfflineData (fun _ => false) 1000 "k3j9q"
        { isOnline := true, forceOffline := false, offlineData := [],
          pendingSyncStore := [], pendingSyncState := [] } "diagnosis" "p").offlineData
      = [mkOfflineItem "diagnosis" "p" 1000 "k3j9q"]
    ∧ (mkOfflineItem "diagnosis" "p" 1000 "k3j9q").synced = false
    ∧ (saveOfflineData (fun _ => false) 1000 "k3j9q"
        { isOnline := true, forceOffline := false, offlineData := [],
          pendingSyncStore := [], pendingSyncState := [] } "diagnosis" "p").pendingSyncStore = []
    ∧ (saveOfflineData (fun _ => false) 1000 "k3j9q"
        { isOnline := true, forceOffline := false, offlineData := [],
          pendingSyncStore := [], pendingSyncState := [] } "diagnosis" "p").pendingSyncState = []
    ∧ syncPendingData (fun _ => true)
        (saveOfflineData (fun _ => false) 1000 "k3j9q"
          { isOnline := true, forceOffline := false, offlineData := [],
            pendingSyncStore := [], pendingSyncState := [] } "diagnosis" "p")
      = saveOfflineData (fun _ => false) 1000 "k3j9q"
          { isOnline := true, forceOffline := false, offlineData := [],
            pendingSyncStore := [], pendingSyncState := [] } "diagnosis" "p" := by
  decide

/-- C3 amended: a record whose delivery fails during a drain cycle stays
in the pending state list and is retried on the next drain; but a record
whose immediate-delivery attempt from the enqueue-while-online path fails
is never added to the pending queue at all — it remains in offlineData
unsynced and is not retried by drain. -/
theorem failedDelivery_retention :
    (∀ (net : OfflineData → Bool) (s : ClientState) (item : OfflineData),
      item ∈ s.pendingSyncState → net item = false →
      item ∈ (syncPendingData net s).pendingSyncState)
    ∧ (∀ (net : OfflineData → Bool) (s : ClientState) (type data : String)
        (now : Int) (rand : String),
      s.isOnline = true → net (mkOfflineItem type data now rand) = false →
      (saveOfflineData net now rand s type data).pendingSyncState = s.pendingSyncState
      ∧ (saveOfflineData net now rand s type data).pendingSyncStore = s.pendingSyncStore
      ∧ (saveOfflineData net now rand s type data).offlineData =
          s.offlineData ++ [mkOfflineItem type data now rand]) := by
  constructor
  · intro net s item hmem hfail
    unfold syncPendingData
    split
    · exact hmem
    · show item ∈ (List.foldl (fun acc2 it =>
          let step := syncDataItem net acc2.1 it
          (step.1, if step.2 then acc2.2 else acc2.2 ++ [it]))
          (s, ([] : List OfflineData)) s.pendingSyncState).2
      rw [drainFold]
      simp [List.mem_filter, hmem, hfail]
  · intro net s type data now rand honline hfail
    unfold saveOfflineData
    simp [honline, syncDataItem, hfail]

/-- Witness for the amended C3 theorem: a queued record with a failing
network stays queued across a drain. -/
theorem failedDelivery_retention_witness :
    mkOfflineItem "market" "m" 5 "zz" ∈
      (syncPendingData (fun _ => false)
        { isOnline := true, forceOffline := false,
          offlineData := [mkOfflineItem "market" "m" 5 "zz"],
          pendingSyncStore := [mkOfflineItem "market" "m" 5 "zz"],
          pendingSyncState := [mkOfflineItem "market" "m" 5 "zz"] }).pendingSyncState :=
  failedDelivery_retention.1 (fun _ => false)
    { isOnline := true, forceOffline := false,
      offlineData := [mkOfflineItem "market" "m" 5 "zz"],
      pendingSyncStore := [mkOfflineItem "market" "m" 5 "zz"],
      pendingSyncState := [mkOfflineItem "market" "m" 5 "zz"] }
    (mkOfflineItem "market" "m" 5 "zz") (by simp) rfl

/-! ## C4: order in which drain sees the pending records -/

/-- C4 counterexample: the pending records come back from the store in
ascending id-string order, and the id starts with the type name, so a
newer diagnosis record (timestamp 2000) is fetched before an older
market record (timestamp 1000).  The fetch order is therefore not
createdAt-ascending across record types. -/
theorem drainOrder_cx :
    idbGetAll
        [mkOfflineItem "market" "m" 1000 "aaaaaaaaa",
         mkOfflineItem "diagnosis" "d" 2000 "bbbbbbbbb"]
      = [mkOfflineItem "diagnosis" "d" 2000 "bbbbbbbbb",
         mkOfflineItem "market" "m" 1000 "aaaaaaaaa"]
    ∧ ¬ (idbGetAll
          [mkOfflineItem "market" "m" 1000 "aaaaaaaaa",
           mkOfflineItem "diagnosis" "d" 2000 "bbbbbbbbb"]).Pairwise
        (fun a b => a.timestamp ≤ b.timestamp) := by
  decide

/-- C4 amended: the store hands the pending records to the client in
ascending lexicographic order of the id string (a permutation of the
stored records), and since the id starts with the type name followed by
the timestamp, that order is chronological only among records of the
same type, not across types. -/
theorem idbGetAll_sorted_by_key (store : List OfflineData) :
    (idbGetAll store).Pairwise idKeyLe ∧ (idbGetAll store).Perm store :=
  ⟨List.sorted_insertionSort idKeyLe store, List.perm_insertionSort idKeyLe store⟩

/-- Witness for the amended C4 theorem at a concrete store. -/
theorem idbGetAll_sorted_by_key_witness :
    (idbGetAll [mkOfflineItem "user_data" "u" 7 "x", mkOfflineItem "irrigation" "i" 9 "y"]).Pairwise
      idKeyLe
    ∧ (idbGetAll [mkOfflineItem "user_data" "u" 7 "x",
        mkOfflineItem "irrigation" "i" 9 "y"]).Perm
        [mkOfflineItem "user_data" "u" 7 "x", mkOfflineItem "irrigation" "i" 9 "y"] :=
  idbGetAll_sorted_by_key
    [mkOfflineItem "user_data" "u" 7 "x", mkOfflineItem "irrigation" "i" 9 "y"]

/-! ## C2: idempotent diagnosis sync -/

/-- find? skips a prefix on which the predicate is everywhere false. -/
theorem find?_append_left_none {α : Type} (p : α → Bool) (l1 l2 : List α)
    (h : ∀ x ∈ l1, p x = false) : (l1 ++ l2).find? p = l2.find? p := by
  induction l1 with
  | nil => rfl
  | cons x xs ih =>
    rw [List.cons_append, List.find?_cons_of_neg _ (by simp [h x (by simp)])]
    exact ih (fun y hy => h y (by simp [hy]))

/-- C2 counterexample: the minimal diagnosis payload of the spec's own
scenario, data.result = (disease only), fails the CropDiagnosis schema's
required confidence and severity validators: the first submission throws
a ValidationError instead of returning created, and no record is ever
inserted. -/
theorem syncDiagnosis_minimal_payload_cx :
    syncDiagnosisData { diagnoses := [], users := [], nextId := 0 } 1
        ⟨some ⟨some "Blight", none, none⟩, some "tomato", none, none, none, []⟩ 0
      = Except.error "CropDiagnosis validation failed"
    ∧ validDiagnosis ⟨some "Blight", none, none⟩ = false :=
  ⟨rfl, rfl⟩

/-- C2 amended: for a payload whose diagnosis result passes the schema's
save-time validation (disease present, confidence present within 0..1,
severity one of low/medium/high), and with no stored record matching the
dedup key (user, timestamp, disease), submitting the same payload twice
returns created with the fresh id on the first call and skipped with that
same id on the second, the second call leaves the state unchanged, and
exactly one record with the dedup key exists afterwards.  A payload
failing the validation throws on every call and creates nothing. -/
theorem syncDiagnosis_idempotent (st : ServerState) (uid : Nat) (ts : Int)
    (data : SyncData) (r : DiagnosisResult) (dis : String)
    (hres : data.result = some r)
    (hdis : r.disease = some dis)
    (hvalid : validDiagnosis r = true)
    (hnew : ∀ d ∈ st.diagnoses, diagnosisQueryMatch uid ts (some dis) d = false) :
    syncDiagnosisData st uid data ts =
      Except.ok (SyncResult.created st.nextId,
        { st with
            diagnoses := st.diagnoses ++
              [({ id := st.nextId, user := uid, createdAt := ts, disease := dis,
                  crop := data.crop.getD "unknown", isOffline := true } : DiagnosisRecord)]
            nextId := st.nextId + 1 })
    ∧ syncDiagnosisData
        { st with
            diagnoses := st.diagnoses ++
              [({ id := st.nextId, user := uid, createdAt := ts, disease := dis,
                  crop := data.crop.getD "unknown", isOffline := true } : DiagnosisRecord)]
            nextId := st.nextId + 1 } uid data ts =
      Except.ok (SyncResult.skipped "Diagnosis already exists" st.nextId,
        { st with
            diagnoses := st.diagnoses ++
              [({ id := st.nextId, user := uid, createdAt := ts, disease := dis,
                  crop := data.crop.getD "unknown", isOffline := true } : DiagnosisRecord)]
            nextId := st.nextId + 1 })
    ∧ (st.diagnoses ++
        [({ id := st.nextId, user := uid, createdAt := ts, disease := dis,
            crop := data.crop.getD "unknown", isOffline := true } : DiagnosisRecord)]).countP
        (diagnosisQueryMatch uid ts (some dis)) = 1 := by
  have hkey : data.result.bind (fun x => x.disease) = some dis := by
    rw [hres]
    exact hdis
  have hmatchNew : diagnosisQueryMatch uid ts (some dis)
      ({ id := st.nextId, user := uid, createdAt := ts, disease := dis,
         crop := data.crop.getD "unknown", isOffline := true } : DiagnosisRecord) = true := by
    simp [diagnosisQueryMatch]
  have hfind : st.diagnoses.find? (diagnosisQueryMatch uid ts (some dis)) = none :=
    List.find?_eq_none.mpr (fun x hx => by simp [hnew x hx])
  have hfind2 : (st.diagnoses ++
      [({ id := st.nextId, user := uid, createdAt := ts, disease := dis,
          crop := data.crop.getD "unknown", isOffline := true } : DiagnosisRecord)]).find?
      (diagnosisQueryMatch uid ts (some dis)) =
      some ({ id := st.nextId, user := uid, createdAt := ts, disease := dis,
              crop := data.crop.getD "unknown", isOffline := true } : DiagnosisRecord) := by
    rw [find?_append_left_none _ _ _ hnew]
    rw [List.find?_cons_of_pos _ hmatchNew]
  refine ⟨?_, ?_, ?_⟩
  · simp only [syncDiagnosisData, hkey, hfind]
    simp only [hres, hdis, hvalid, if_true]
  · simp only [syncDiagnosisData, hkey, hfind2]
  · rw [List.countP_append]
    rw [List.countP_eq_zero.mpr (fun x hx => by simp [hnew x hx])]
    simp [List.countP_cons, hmatchNew]

/-- Witness for the amended C2 theorem: a schema-valid payload on an
empty server state. -/
theorem syncDiagnosis_idempotent_witness :
    validDiagnosis ⟨some "Blight", some 1, some "medium"⟩ = true
    ∧ (syncDiagnosisData { diagnoses := [], users := [], nextId := 0 } 1
        ⟨some ⟨some "Blight", some 1, some "medium"⟩, some "tomato", none, none, none, []⟩ 0 =
      Except.ok (SyncResult.created 0,
        { diagnoses := [{ id := 0, user := 1, createdAt := 0, disease := "Blight",
                          crop := "tomato", isOffline := true }],
          users := [], nextId := 1 })) := by
  have h := syncDiagnosis_idempotent { diagnoses := [], users := [], nextId := 0 } 1 0
    ⟨some ⟨some "Blight", some 1, some "medium"⟩, some "tomato", none, none, none, []⟩
    ⟨some "Blight", some 1, some "medium"⟩ "Blight" rfl rfl (by decide)
    (by intro d hd; cases hd)
  exact ⟨by decide, h.1⟩

/-! ## C10: the clear endpoint's default cutoff and deletion scope -/

/-- C10: an absent olderThan query value, and any value other than 7d,
30d and 90d, silently selects the 30-day cutoff instead of rejecting the
request; and whatever the cutoff, deletion never touches a record that is
not offline-origin or belongs to another user — every deleted record is
the requesting user's, offline-tagged, and older than the cutoff, and the
reported deletedCount counts exactly those records. -/
theorem clearOldData_scope (st : ServerState) (uid : Nat) (now : Int) (q : Option String) :
    (q ≠ some "7d" → q ≠ some "90d" → clearCutoff now q = now - 30 * msPerDay)
    ∧ (∀ d ∈ st.diagnoses, d.isOffline = false → d ∈ (clearOldData st uid now q).1.diagnoses)
    ∧ (∀ d ∈ st.diagnoses, d.user ≠ uid → d ∈ (clearOldData st uid now q).1.diagnoses)
    ∧ (∀ d ∈ st.diagnoses, d ∉ (clearOldData st uid now q).1.diagnoses →
        d.user = uid ∧ d.isOffline = true ∧ d.createdAt < clearCutoff now q)
    ∧ (clearOldData st uid now q).2 = st.diagnoses.countP (clearMatch uid (clearCutoff now q)) := by
  refine ⟨?_, ?_, ?_, ?_, rfl⟩
  · intro h7 h90
    unfold clearCutoff
    cases q with
    | none => rfl
    | some v =>
      simp only [Option.getD]
      split
      · exact absurd rfl h7
      · rfl
      · exact absurd rfl h90
      · rfl
  · intro d hd hoff
    simp [clearOldData, List.mem_filter, hd, clearMatch, hoff]
  · intro d hd huser
    simp [clearOldData, List.mem_filter, hd, clearMatch, huser]
  · intro d hd hnot
    have hmatch : clearMatch uid (clearCutoff now q) d = true := by
      by_contra hc
      exact hnot (List.mem_filter.mpr ⟨hd, by simp [Bool.eq_false_iff.mpr hc]⟩)
    have h2 := hmatch
    unfold clearMatch at h2
    simp only [Bool.and_eq_true, beq_iff_eq, decide_eq_true_eq] at h2
    exact ⟨h2.1.1, h2.2, h2.1.2⟩

/-- Witness for C10: an unrecognized olderThan value selects the 30-day
cutoff, and an ancient online-origin diagnosis record survives the
deletion. -/
theorem clearOldData_scope_witness :
    clearCutoff 0 (some "1h") = 0 - 30 * msPerDay
    ∧ ({ id := 0, user := 1, createdAt := -99999999999, disease := "Rust",
         crop := "wheat", isOffline := false : DiagnosisRecord } ∈
        (clearOldData
          { diagnoses := [{ id := 0, user := 1, createdAt := -99999999999,
                            disease := "Rust", crop := "wheat", isOffline := false }],
            users := [], nextId := 1 } 1 0 (some "1h")).1.diagnoses) :=
  ⟨(clearOldData_scope
      { diagnoses := [{ id := 0, user := 1, createdAt := -99999999999,
                        disease := "Rust", crop := "wheat", isOffline := false }],
        users := [], nextId := 1 } 1 0 (some "1h")).1
      (by decide) (by decide),
   (clearOldData_scope
      { diagnoses := [{ id := 0, user := 1, createdAt := -99999999999,
                        disease := "Rust", crop := "wheat", isOffline := false }],
        users := [], nextId := 1 } 1 0 (some "1h")).2.1
      { id := 0, user := 1, createdAt := -99999999999, disease := "Rust",
        crop := "wheat", isOffline := false }
      (by simp) rfl⟩

/-! ## C9: allow-list merge of user_data sync -/

/-- C9 counterexample: an allow-listed field carrying a value the User
schema rejects (preferences.language = "xx", outside the enum) makes
user.save() throw a ValidationError: the reconciler returns an error, not
updated, and nothing persists.  The claim's unconditional "otherwise it
persists and returns action updated" is therefore false. -/
theorem syncUserData_invalid_update_cx :
    syncUserData
        { diagnoses := [],
          users := [⟨1, ⟨"en", "celsius", "acres"⟩, ⟨none, [], none⟩,
                    ⟨none, none, none⟩, [("name", "N")]⟩],
          nextId := 0 } 1
        ⟨none, none, some ⟨"xx", "celsius", "acres"⟩, none, none, []⟩
      = Except.error "User validation failed" :=
  rfl

/-- C9 amended: only the three allow-listed fields are copied onto the
stored profile and the outcome depends on the payload only through those
three fields, so every other payload key is silently ignored; with none
of the three present the reconciler returns no_changes and the state is
untouched; with at least one present, it persists and returns updated
with the applied field names provided the merged document passes the User
schema validators, and throws a ValidationError (persisting nothing)
otherwise. -/
theorem syncUserData_allowlist (st : ServerState) (uid : Nat)
    (data : SyncData) (u : UserProfile)
    (hu : st.users.find? (fun w => w.id == uid) = some u) :
    (syncUserData st uid data =
      if data.preferences.isSome ∨ data.farmDetails.isSome ∨ data.location.isSome then
        (if validUserProfile (mergedProfile u data) = true then
          Except.ok (SyncResult.updated (presentUserFields data),
            { st with users :=
                st.users.map (fun w => if w.id == uid then mergedProfile u data else w) })
        else Except.error "User validation failed")
      else Except.ok (SyncResult.noChanges "No valid updates found", st))
    ∧ (∀ data2 : SyncData,
        data2.preferences = data.preferences →
        data2.farmDetails = data.farmDetails →
        data2.location = data.location →
        syncUserData st uid data2 = syncUserData st uid data) := by
  constructor
  · unfold syncUserData presentUserFields mergedProfile allowedUpdates
    rw [hu]
    rcases hp : data.preferences with _ | vp <;>
      rcases hf : data.farmDetails with _ | vf <;>
      rcases hl : data.location with _ | vl <;>
      simp [hp, hf, hl]
  · intro data2 h1 h2 h3
    unfold syncUserData presentUserFields mergedProfile allowedUpdates
    rw [hu, h1, h2, h3]

/-- Witness for the amended C9 theorem: a payload with one valid
allow-listed field and a junk key updates exactly the preferences. -/
theorem syncUserData_allowlist_witness :
    (({ diagnoses := [],
        users := [⟨1, ⟨"en", "celsius", "acres"⟩, ⟨none, [], none⟩,
                  ⟨none, none, none⟩, [("name", "N")]⟩],
        nextId := 0 } : ServerState).users.find? (fun w => w.id == 1) =
      some ⟨1, ⟨"en", "celsius", "acres"⟩, ⟨none, [], none⟩, ⟨none, none, none⟩,
            [("name", "N")]⟩)
    ∧ (syncUserData
        { diagnoses := [],
          users := [⟨1, ⟨"en", "celsius", "acres"⟩, ⟨none, [], none⟩,
                    ⟨none, none, none⟩, [("name", "N")]⟩],
          nextId := 0 } 1
        ⟨none, none, some ⟨"hi", "celsius", "acres"⟩, none, none, ["junk"]⟩ =
      if (some (⟨"hi", "celsius", "acres"⟩ : Preferences)).isSome ∨
          (none : Option FarmDetails).isSome ∨ (none : Option UserLocation).isSome then
        (if validUserProfile
            (mergedProfile
              ⟨1, ⟨"en", "celsius", "acres"⟩, ⟨none, [], none⟩, ⟨none, none, none⟩,
                [("name", "N")]⟩
              ⟨none, none, some ⟨"hi", "celsius", "acres"⟩, none, none, ["junk"]⟩) = true then
          Except.ok (SyncResult.updated
            (presentUserFields
              ⟨none, none, some ⟨"hi", "celsius", "acres"⟩, none, none, ["junk"]⟩),
            { diagnoses := [],
              users := ([⟨1, ⟨"en", "celsius", "acres"⟩, ⟨none, [], none⟩,
                          ⟨none, none, none⟩, [("name", "N")]⟩] : List UserProfile).map
                (fun w => if w.id == 1 then
                  mergedProfile
                    ⟨1, ⟨"en", "celsius", "acres"⟩, ⟨none, [], none⟩, ⟨none, none, none⟩,
                      [("name", "N")]⟩
                    ⟨none, none, some ⟨"hi", "celsius", "acres"⟩, none, none, ["junk"]⟩
                  else w),
              nextId := 0 })
        else Except.error "User validation failed")
      else Except.ok (SyncResult.noChanges "No valid updates found",
        { diagnoses := [],
          users := [⟨1, ⟨"en", "celsius", "acres"⟩, ⟨none, [], none⟩,
                    ⟨none, none, none⟩, [("name", "N")]⟩],
          nextId := 0 })) :=
  ⟨rfl,
   (syncUserData_allowlist
     { diagnoses := [],
       users := [⟨1, ⟨"en", "celsius", "acres"⟩, ⟨none, [], none⟩,
                 ⟨none, none, none⟩, [("name", "N")]⟩],
       nextId := 0 } 1
     ⟨none, none, some ⟨"hi", "celsius", "acres"⟩, none, none, ["junk"]⟩
     ⟨1, ⟨"en", "celsius", "acres"⟩, ⟨none, [], none⟩, ⟨none, none, none⟩, [("name", "N")]⟩
     rfl).1⟩

/-! ## C6: batch partial-failure isolation -/

/-- The batch loop produces exactly one results entry per item. -/
theorem processItems_length (uid : Nat) :
    ∀ (items : List SyncItem) (st : ServerState),
      (processItems st uid items).1.length = items.length := by
  intro items
  induction items with
  | nil => intro st; rfl
  | cons x xs ih =>
    intro st
    unfold processItems
    cases h : processItem st uid x with
    | ok r => simp [h, ih]
    | error m => simp [h, ih]

/-- The batch loop decomposes over list append: the tail items are
processed from the state the prefix left behind. -/
theorem processItems_append (uid : Nat) :
    ∀ (l1 l2 : List SyncItem) (st : ServerState),
      processItems st uid (l1 ++ l2) =
        ((processItems st uid l1).1 ++ (processItems (processItems st uid l1).2 uid l2).1,
         (processItems (processItems st uid l1).2 uid l2).2) := by
  intro l1
  induction l1 with
  | nil => intro l2 st; rfl
  | cons x xs ih =>
    intro l2 st
    simp only [List.cons_append]
    cases h : processItem st uid x with
    | ok r =>
      simp only [processItems, h]
      rw [ih]
      rfl
    | error m =>
      simp only [processItems, h]
      rw [ih]
      rfl

/-- Every results entry is either a success or an error, so the two
filtered counts add up to the number of entries. -/
theorem outcomeCount (l : List ItemOutcome) :
    (l.filter ItemOutcome.isSuccess).length + (l.filter ItemOutcome.isError).length
      = l.length := by
  induction l with
  | nil => rfl
  | cons x xs ih =>
    cases x with
    | mk ty status =>
      cases status <;>
        simp [ItemOutcome.isSuccess, ItemOutcome.isError, List.filter_cons] <;>
        omega

/-- C6: when one item's reconciler throws, the batch still processes the
preceding and following items from their own states, records the error
message against the throwing item in its results slot, and reports
summary.total equal to the number of submitted items with
success + errors = total. -/
theorem batch_item_isolation (st : ServerState) (uid : Nat) (now : Int)
    (pre post : List SyncItem) (bad : SyncItem) (msg : String)
    (hthrow : processItem (processItems st uid pre).2 uid bad = Except.error msg) :
    (batchSync st uid (pre ++ bad :: post) now).1.total = (pre ++ bad :: post).length
    ∧ (batchSync st uid (pre ++ bad :: post) now).2.1 =
        (processItems st uid pre).1 ++
          ({ type := bad.type, status := ItemStatus.error msg } : ItemOutcome) ::
            (processItems (processItems st uid pre).2 uid post).1
    ∧ (batchSync st uid (pre ++ bad :: post) now).1.success
        + (batchSync st uid (pre ++ bad :: post) now).1.errors
      = (batchSync st uid (pre ++ bad :: post) now).1.total := by
  have hres : (processItems st uid (pre ++ bad :: post)).1 =
      (processItems st uid pre).1 ++
        ({ type := bad.type, status := ItemStatus.error msg } : ItemOutcome) ::
          (processItems (processItems st uid pre).2 uid post).1 := by
    rw [processItems_append]
    simp only [processItems, hthrow]
  refine ⟨rfl, hres, ?_⟩
  show ((processItems st uid (pre ++ bad :: post)).1.filter ItemOutcome.isSuccess).length
      + ((processItems st uid (pre ++ bad :: post)).1.filter ItemOutcome.isError).length
    = (pre ++ bad :: post).length
  rw [outcomeCount]
  exact processItems_length uid _ st

/-- Witness for C6: a three-item batch whose middle user_data item throws
because the user record is missing; the flanking irrigation and market
items still succeed and the summary adds up. -/
theorem batch_item_isolation_witness :
    processItem
        (processItems { diagnoses := [], users := [], nextId := 0 } 1
          [(⟨SyncType.irrigation, ⟨none, none, none, none, none, []⟩, 11⟩ : SyncItem)]).2 1
        (⟨SyncType.user_data, ⟨none, none, some ⟨"hi", "celsius", "acres"⟩, none, none, []⟩, 12⟩ : SyncItem)
      = Except.error "User not found"
    ∧ (batchSync { diagnoses := [], users := [], nextId := 0 } 1
        ([(⟨SyncType.irrigation, ⟨none, none, none, none, none, []⟩, 11⟩ : SyncItem)] ++
          (⟨SyncType.user_data, ⟨none, none, some ⟨"hi", "celsius", "acres"⟩, none, none, []⟩, 12⟩ : SyncItem) ::
            [(⟨SyncType.market, ⟨none, none, none, none, none, []⟩, 13⟩ : SyncItem)]) 99).1.total
      = ([(⟨SyncType.irrigation, ⟨none, none, none, none, none, []⟩, 11⟩ : SyncItem)] ++
          (⟨SyncType.user_data, ⟨none, none, some ⟨"hi", "celsius", "acres"⟩, none, none, []⟩, 12⟩ : SyncItem) ::
            [(⟨SyncType.market, ⟨none, none, none, none, none, []⟩, 13⟩ : SyncItem)]).length
    ∧ (batchSync { diagnoses := [], users := [], nextId := 0 } 1
        ([(⟨SyncType.irrigation, ⟨none, none, none, none, none, []⟩, 11⟩ : SyncItem)] ++
          (⟨SyncType.user_data, ⟨none, none, some ⟨"hi", "celsius", "acres"⟩, none, none, []⟩, 12⟩ : SyncItem) ::
            [(⟨SyncType.market, ⟨none, none, none, none, none, []⟩, 13⟩ : SyncItem)]) 99).2.1 =
        (processItems { diagnoses := [], users := [], nextId := 0 } 1
          [(⟨SyncType.irrigation, ⟨none, none, none, none, none, []⟩, 11⟩ : SyncItem)]).1 ++
          ({ type := SyncType.user_data, status := ItemStatus.error "User not found" } :
              ItemOutcome) ::
            (processItems
              (processItems { diagnoses := [], users := [], nextId := 0 } 1
                [(⟨SyncType.irrigation, ⟨none, none, none, none, none, []⟩, 11⟩ : SyncItem)]).2 1
              [(⟨SyncType.market, ⟨none, none, none, none, none, []⟩, 13⟩ : SyncItem)]).1 :=
  ⟨rfl,
   (batch_item_isolation { diagnoses := [], users := [], nextId := 0 } 1 99
     [(⟨SyncType.irrigation, ⟨none, none, none, none, none, []⟩, 11⟩ : SyncItem)]
     [(⟨SyncType.market, ⟨none, none, none, none, none, []⟩, 13⟩ : SyncItem)]
     (⟨SyncType.user_data, ⟨none, none, some ⟨"hi", "celsius", "acres"⟩, none, none, []⟩, 12⟩ : SyncItem)
     "User not found" rfl).1,
   (batch_item_isolation { diagnoses := [], users := [], nextId := 0 } 1 99
     [(⟨SyncType.irrigation, ⟨none, none, none, none, none, []⟩, 11⟩ : SyncItem)]
     [(⟨SyncType.market, ⟨none, none, none, none, none, []⟩, 13⟩ : SyncItem)]
     (⟨SyncType.user_data, ⟨none, none, some ⟨"hi", "celsius", "acres"⟩, none, none, []⟩, 12⟩ : SyncItem)
     "User not found" rfl).2.1⟩

end KrishiMitra
